import Mathlib

set_option autoImplicit false

/-!
Shallow embedding of the repository layer of the Lab12 project.

The repository contains two structurally identical subsystems:
* a Flight Registry in two variants
  (`src/tasks/task1.py`, plain `sqlite3`, timestamps stored as TEXT, and
  `src/tasks/task2.py`, SQLAlchemy, timestamps parsed to `datetime`), and
* a Worker Registry (`src/examples/workers.py`, plain `sqlite3`).

Every repository method opens a connection, runs one parameterized SQL
statement, commits and closes; so the whole behaviour is a pure function of
the table contents.  Tables are modelled as Lean lists of row records, in
insertion order (sqlite rowid order, which is also the order in which plain
`SELECT` statements without `ORDER BY` return rows for these tables).

One storage-engine fact matters and is modelled explicitly: sqlite only
enforces declared `FOREIGN KEY` constraints when the per-connection pragma
`foreign_keys` is ON, and it is OFF by default.  Neither `task1.py` nor
`task2.py` (SQLAlchemy makes no difference here) ever issues
`PRAGMA foreign_keys = ON`, so foreign keys are declared in the schema but
not enforced at run time.  `PRIMARY KEY` uniqueness, in contrast, is always
enforced.
-/

namespace Task1

/-- Value object `Airport` of `src/tasks/task1.py` (a `@dataclass`). -/
structure Airport where
  code : String
  name : String
  city : String
deriving DecidableEq, Repr

/-- Value object `Flight` of `src/tasks/task1.py` (a `@dataclass`).
Both timestamps are plain strings: `task1.py` stores the caller strings
verbatim in TEXT columns and returns them verbatim. -/
structure Flight where
  number : String
  departure_airport : String
  arrival_airport : String
  departure_time : String
  arrival_time : String
deriving DecidableEq, Repr

/-- Errors raised by the storage layer, as classified by the spec taxonomy.
`sqlite3.IntegrityError` for a duplicate primary key is `UniquenessViolation`;
a foreign-key failure would be `ReferentialIntegrityError`;
`ValueError` from `datetime.strptime` is `FormatError`. -/
inductive DBError where
  | UniquenessViolation
  | ReferentialIntegrityError
  | FormatError
deriving DecidableEq, Repr

/-- State of the two tables of `task1.py` after `FlightRepository.__init__`
has run `_create_tables` (the constructor always does), in rowid order. -/
structure Store where
  airports : List Airport
  flights : List Flight
deriving DecidableEq, Repr

/-- A freshly constructed repository on a new database file. -/
def emptyStore : Store := ⟨[], []⟩

/-- `FlightRepository.add_airport` (task1): one INSERT into `airports`,
whose `code TEXT PRIMARY KEY` makes a duplicate code an IntegrityError. -/
def add_airport (code name city : String) (db : Store) : Except DBError Store :=
  if db.airports.any (fun a => a.code = code) then
    .error .UniquenessViolation
  else
    .ok { db with airports := db.airports ++ [⟨code, name, city⟩] }

/-- The sqlite per-connection pragma `foreign_keys`.  It defaults to OFF and
`task1.py` never changes it, so the declared FOREIGN KEY constraints of the
`flights` table are not enforced at run time. -/
def foreign_keys_pragma : Bool := false

/-- One INSERT into `flights` as executed by sqlite with a given setting of
the `foreign_keys` pragma: the TEXT PRIMARY KEY on `number` is always
enforced; the two declared FOREIGN KEY constraints only when the pragma
is ON. -/
def insertFlight (fkEnforced : Bool) (number departure arrival depTime arrTime : String)
    (db : Store) : Except DBError Store :=
  if db.flights.any (fun f => f.number = number) then
    .error .UniquenessViolation
  else if fkEnforced &&
      !(db.airports.any (fun a => a.code = departure) &&
        db.airports.any (fun a => a.code = arrival)) then
    .error .ReferentialIntegrityError
  else
    .ok { db with flights := db.flights ++ [⟨number, departure, arrival, depTime, arrTime⟩] }

/-- `FlightRepository.add_flight` (task1): stores the five caller strings
verbatim — no timestamp parsing or validation happens anywhere in task1 —
under the connection default `foreign_keys = OFF`. -/
def add_flight (number departure arrival depTime arrTime : String)
    (db : Store) : Except DBError Store :=
  insertFlight foreign_keys_pragma number departure arrival depTime arrTime db

/-- `FlightRepository.get_all_flights` (task1): `SELECT` of all columns of
`flights`, rows in rowid order. -/
def get_all_flights (db : Store) : List Flight :=
  db.flights

/-- `FlightRepository.get_flights_by_destination` (task1):
`SELECT ... FROM flights f WHERE f.arrival_airport = ?`. -/
def get_flights_by_destination (airport_code : String) (db : Store) : List Flight :=
  db.flights.filter (fun f => f.arrival_airport = airport_code)

/-- `FlightRepository.get_all_airports` (task1). -/
def get_all_airports (db : Store) : List Airport :=
  db.airports

end Task1

namespace Task2

/-- The components of a Python `datetime` value as produced by
`datetime.strptime(s, "%Y-%m-%d %H:%M")` (seconds and below are zero for
this format and are omitted). -/
structure DateTime where
  year : Nat
  month : Nat
  day : Nat
  hour : Nat
  minute : Nat
deriving DecidableEq, Repr

/-- Maximal run of leading decimal digits of a character list, and the rest. -/
def takeDigitRun : List Char → List Char × List Char
  | [] => ([], [])
  | c :: cs =>
    if c.isDigit then
      let r := takeDigitRun cs
      (c :: r.1, r.2)
    else
      ([], c :: cs)

/-- Numeric value of a list of decimal digits. -/
def digitsToNat (ds : List Char) : Nat :=
  ds.foldl (fun acc c => acc * 10 + (c.toNat - 48)) 0

/-- Consume one expected literal character. -/
def expectChar (c : Char) : List Char → Option (List Char)
  | [] => none
  | x :: xs => if x = c then some xs else none

/-- Consume one or more whitespace characters: a whitespace character in a
`strptime` format string is compiled to the regex `\s+`.  (Python `\s` also
covers a few exotic Unicode space characters beyond these ASCII ones; none
of the properties below depend on them.) -/
def skipSpaces1 : List Char → Option (List Char)
  | [] => none
  | x :: xs =>
    if x.isWhitespace then
      some (skipSpaces1go xs)
    else
      none
where
  skipSpaces1go : List Char → List Char
    | [] => []
    | x :: xs => if x.isWhitespace then skipSpaces1go xs else x :: xs

/-- Gregorian leap-year rule, as used by Python `datetime`. -/
def isLeapYear (y : Nat) : Bool :=
  (y % 4 = 0 && y % 100 != 0) || y % 400 = 0

/-- Days in a month, as validated by the Python `datetime` constructor. -/
def daysInMonth (y m : Nat) : Nat :=
  if m = 2 then (if isLeapYear y then 29 else 28)
  else if m = 4 || m = 6 || m = 9 || m = 11 then 30
  else 31

/-- `datetime.strptime(s, "%Y-%m-%d %H:%M")`: `%Y` matches exactly four
digits; `%m`, `%d`, `%H`, `%M` match one or two digits within their regex
ranges (month 1..12, day 1..31, hour 0..23, minute 0..59, with no 2-digit
zero month/day); literal `-` and `:` match themselves; the space matches one
or more whitespace characters; trailing unconverted input is an error; and
the resulting `datetime(...)` constructor additionally requires a positive
year and a day that exists in the month.  Returns `none` exactly when Python
raises `ValueError`. -/
def strptimeYmdHM (s : String) : Option DateTime := do
  let cs0 := s.toList
  let yr := takeDigitRun cs0
  guard (yr.1.length = 4)
  let y := digitsToNat yr.1
  let cs1 ← expectChar '-' yr.2
  let mr := takeDigitRun cs1
  guard (mr.1.length = 1 ∨ mr.1.length = 2)
  let m := digitsToNat mr.1
  guard (1 ≤ m ∧ m ≤ 12)
  let cs2 ← expectChar '-' mr.2
  let dr := takeDigitRun cs2
  guard (dr.1.length = 1 ∨ dr.1.length = 2)
  let d := digitsToNat dr.1
  guard (1 ≤ d ∧ d ≤ 31)
  let cs3 ← skipSpaces1 dr.2
  let hr := takeDigitRun cs3
  guard (hr.1.length = 1 ∨ hr.1.length = 2)
  let h := digitsToNat hr.1
  guard (h ≤ 23)
  let cs4 ← expectChar ':' hr.2
  let mir := takeDigitRun cs4
  guard (mir.1.length = 1 ∨ mir.1.length = 2)
  let mi := digitsToNat mir.1
  guard (mi ≤ 59)
  guard (mir.2 = [])
  guard (1 ≤ y)
  guard (d ≤ daysInMonth y m)
  pure ⟨y, m, d, h, mi⟩

/-- ORM row `Airport` of `src/tasks/task2.py`. -/
structure Airport where
  code : String
  name : String
  city : String
deriving DecidableEq, Repr

/-- ORM row `Flight` of `src/tasks/task2.py`: the two time columns are
`DateTime` columns, filled from `strptime` of the caller strings. -/
structure Flight where
  number : String
  departure_airport_code : String
  arrival_airport_code : String
  departure_time : DateTime
  arrival_time : DateTime
deriving DecidableEq, Repr

/-- Error taxonomy for the SQLAlchemy variant: `IntegrityError` on a
duplicate primary key is `UniquenessViolation`; `ValueError` from
`strptime` is `FormatError`. -/
inductive DBError where
  | UniquenessViolation
  | FormatError
deriving DecidableEq, Repr

/-- State of the two tables of `task2.py` after the constructor has run
`Base.metadata.create_all`.  As in task1, the sqlite `foreign_keys` pragma
stays OFF (SQLAlchemy does not set it), so the declared foreign keys of
`flights` are not enforced. -/
structure Store where
  airports : List Airport
  flights : List Flight
deriving DecidableEq, Repr

/-- A freshly constructed repository on a new database file. -/
def emptyStore : Store := ⟨[], []⟩

/-- `FlightRepository.add_airport` (task2). -/
def add_airport (code name city : String) (db : Store) : Except DBError Store :=
  if db.airports.any (fun a => a.code = code) then
    .error .UniquenessViolation
  else
    .ok { db with airports := db.airports ++ [⟨code, name, city⟩] }

/-- `FlightRepository.add_flight` (task2): both `strptime` calls run before
`session.add`/`session.commit`, so a malformed timestamp raises
`ValueError` with nothing inserted; otherwise the commit enforces the
primary key on `number`.  Foreign keys are not enforced (pragma OFF). -/
def add_flight (number departureCode arrivalCode depTimeStr arrTimeStr : String)
    (db : Store) : Except DBError Store :=
  match strptimeYmdHM depTimeStr with
  | none => .error .FormatError
  | some depT =>
    match strptimeYmdHM arrTimeStr with
    | none => .error .FormatError
    | some arrT =>
      if db.flights.any (fun f => f.number = number) then
        .error .UniquenessViolation
      else
        .ok { db with flights := db.flights ++ [⟨number, departureCode, arrivalCode, depT, arrT⟩] }

/-- `FlightRepository.get_all_flights` (task2). -/
def get_all_flights (db : Store) : List Flight :=
  db.flights

/-- `FlightRepository.get_flights_by_destination` (task2):
`query(Flight).filter(Flight.arrival_airport_code == airport_code)`. -/
def get_flights_by_destination (airport_code : String) (db : Store) : List Flight :=
  db.flights.filter (fun f => f.arrival_airport_code = airport_code)

/-- `FlightRepository.get_all_airports` (task2). -/
def get_all_airports (db : Store) : List Airport :=
  db.airports

end Task2

namespace Workers

/-- Row of the `posts` table of `src/examples/workers.py`
(`post_id INTEGER PRIMARY KEY AUTOINCREMENT, post_title TEXT NOT NULL UNIQUE`). -/
structure PostRow where
  post_id : Nat
  post_title : String
deriving DecidableEq, Repr

/-- Row of the `workers` table of `src/examples/workers.py`
(`worker_name TEXT NOT NULL, post_id INTEGER NOT NULL, worker_year INTEGER
NOT NULL`, with an unenforced foreign key to `posts`; there is no
uniqueness constraint on any worker column). -/
structure WorkerRow where
  worker_name : String
  post_id : Nat
  worker_year : Int
deriving DecidableEq, Repr

/-- Value object `Worker` of `src/examples/workers.py` (a frozen
`@dataclass`): the projection `worker_name, post_title, worker_year` of the
join of `workers` with `posts`. -/
structure Worker where
  name : String
  post : String
  year : Int
deriving DecidableEq, Repr

/-- State of the two tables of `workers.py` after the `StaffRepository`
constructor has run `_create_db`.  `nextPostId` is the AUTOINCREMENT
counter of `posts` (rows are never deleted, so it is one more than the
largest id ever assigned; sqlite starts at 1). -/
structure StaffStore where
  posts : List PostRow
  nextPostId : Nat
  workers : List WorkerRow
deriving DecidableEq, Repr

/-- A freshly constructed repository on a new database file. -/
def emptyStaffStore : StaffStore := ⟨[], 1, []⟩

/-- `StaffRepository.get_or_create_post`: `SELECT post_id FROM posts WHERE
post_title = ?`; on a hit, return the fetched id; on a miss, INSERT the
title (receiving a fresh AUTOINCREMENT id, returned via `lastrowid`). -/
def get_or_create_post (title : String) (db : StaffStore) : Nat × StaffStore :=
  match db.posts.find? (fun p => p.post_title = title) with
  | some row => (row.post_id, db)
  | none =>
    (db.nextPostId,
     { db with posts := db.posts ++ [⟨db.nextPostId, title⟩],
               nextPostId := db.nextPostId + 1 })

/-- `StaffRepository.add_worker`: resolve the post via
`get_or_create_post`, then INSERT one row into `workers` referencing it.
No validation of name or year; duplicates are allowed. -/
def add_worker (name post : String) (year : Int) (db : StaffStore) : StaffStore :=
  let r := get_or_create_post post db
  { r.2 with workers := r.2.workers ++ [⟨name, r.1, year⟩] }

/-- Nested-loop evaluation of
`FROM workers JOIN posts ON posts.post_id = workers.post_id`:
for each worker row in order, every matching post row in order. -/
def joinAll (posts : List PostRow) : List WorkerRow → List (WorkerRow × PostRow)
  | [] => []
  | w :: ws =>
    ((posts.filter (fun p => p.post_id = w.post_id)).map (fun p => (w, p)))
      ++ joinAll posts ws

/-- `StaffRepository.get_all_workers`: the join above projected to
`worker_name, post_title, worker_year`. -/
def get_all_workers (db : StaffStore) : List Worker :=
  (joinAll db.posts db.workers).map
    (fun wp => ⟨wp.1.worker_name, wp.2.post_title, wp.1.worker_year⟩)

/-- `StaffRepository.select_by_period`: the same join restricted by
`WHERE (? - workers.worker_year) >= ?` with parameters
`(current_year, period)`, then the same projection.  The code reads
`current_year` from the system clock (`datetime.now().year`); it is taken
here as an explicit argument, as the spec directs tests to do. -/
def select_by_period (current_year : Int) (period : Int) (db : StaffStore) : List Worker :=
  ((joinAll db.posts db.workers).filter
      (fun wp => period ≤ current_year - wp.1.worker_year)).map
    (fun wp => ⟨wp.1.worker_name, wp.2.post_title, wp.1.worker_year⟩)

end Workers

namespace Schema

/-- The effect of one `CREATE TABLE IF NOT EXISTS` statement on one table:
`none` models an absent table; an absent table is created empty; an
existing table is left exactly as it is.  The statement never errors. -/
def createTableIfNotExists {α : Type} (t : Option (List α)) : Option (List α) :=
  match t with
  | none => some []
  | some rows => some rows

/-- Schema-level state of the `workers.py` database: each table either
absent or present with its rows. -/
structure StaffSchema where
  posts : Option (List Workers.PostRow)
  workers : Option (List Workers.WorkerRow)
deriving DecidableEq, Repr

/-- `StaffRepository._create_db` (run by the constructor): one
`CREATE TABLE IF NOT EXISTS` for `posts` and one for `workers`. -/
def create_db (s : StaffSchema) : StaffSchema :=
  ⟨createTableIfNotExists s.posts, createTableIfNotExists s.workers⟩

/-- Schema-level state of the `task1.py` database. -/
structure FlightSchema where
  airports : Option (List Task1.Airport)
  flights : Option (List Task1.Flight)
deriving DecidableEq, Repr

/-- `FlightRepository._create_tables` (task1, run by the constructor): one
`CREATE TABLE IF NOT EXISTS` for `airports` and one for `flights`. -/
def create_tables (s : FlightSchema) : FlightSchema :=
  ⟨createTableIfNotExists s.airports, createTableIfNotExists s.flights⟩

end Schema

namespace Display

/-- Python `"{:<w}".format(s)`: pad on the right with spaces to width `w`;
a string at least `w` long is returned unchanged. -/
def pyLJust (w : Nat) (s : String) : String :=
  s ++ String.mk (List.replicate (w - s.length) ' ')

/-- Python `"{:>w}".format(s)`: pad on the left with spaces to width `w`. -/
def pyRJust (w : Nat) (s : String) : String :=
  String.mk (List.replicate (w - s.length) ' ') ++ s

/-- Python `"{:^w}".format(s)`: centre, with the extra space (if the total
padding is odd) going to the right: the left margin is `(w - len) / 2`. -/
def pyCenter (w : Nat) (s : String) : String :=
  let pad := w - s.length
  String.mk (List.replicate (pad / 2) ' ') ++ s ++ String.mk (List.replicate (pad - pad / 2) ' ')

/-- `"-" * n`. -/
def dashes (n : Nat) : String :=
  String.mk (List.replicate n '-')

/-- The border line of `display_workers`:
`"+-{}-+-{}-+-{}-+-{}-+".format("-" * 4, "-" * 30, "-" * 20, "-" * 8)`. -/
def workersLine : String :=
  "+-" ++ dashes 4 ++ "-+-" ++ dashes 30 ++ "-+-" ++ dashes 20 ++ "-+-" ++ dashes 8 ++ "-+"

/-- The header row of `display_workers`. -/
def workersHeader : String :=
  "| " ++ pyCenter 4 "№" ++ " | " ++ pyCenter 30 "Ф.И.О." ++ " | "
    ++ pyCenter 20 "Должность" ++ " | " ++ pyCenter 8 "Год" ++ " |"

/-- One data row of `display_workers`, with its 1-based `enumerate` index. -/
def workerRow (idx : Nat) (w : Workers.Worker) : String :=
  "| " ++ pyRJust 4 (toString idx) ++ " | " ++ pyLJust 30 w.name ++ " | "
    ++ pyLJust 20 w.post ++ " | " ++ pyRJust 8 (toString w.year) ++ " |"

/-- The lines printed by `display_workers` (workers.py), in order. -/
def display_workers (ws : List Workers.Worker) : List String :=
  match ws with
  | [] => ["Список работников пуст."]
  | _ =>
    workersLine :: workersHeader :: workersLine
      :: ((List.range ws.length).zip ws).map (fun p => workerRow (p.1 + 1) p.2)
      ++ [workersLine]

/-- The border line of `display_flights` (task1):
`"+{}+{}+{}+{}+{}+".format("-" * 10, "-" * 20, "-" * 20, "-" * 16, "-" * 16)`. -/
def flightsLine : String :=
  "+" ++ dashes 10 ++ "+" ++ dashes 20 ++ "+" ++ dashes 20 ++ "+" ++ dashes 16 ++ "+" ++ dashes 16 ++ "+"

/-- The header row of `display_flights` (task1). -/
def flightsHeader : String :=
  "|" ++ pyCenter 10 "Номер" ++ "|" ++ pyCenter 20 "Аэропорт вылета" ++ "|"
    ++ pyCenter 20 "Аэропорт прибытия" ++ "|" ++ pyCenter 16 "Время вылета" ++ "|"
    ++ pyCenter 16 "Время прибытия" ++ "|"

/-- One data row of `display_flights` (task1). -/
def flightRow (f : Task1.Flight) : String :=
  "|" ++ pyLJust 10 f.number ++ "|" ++ pyLJust 20 f.departure_airport ++ "|"
    ++ pyLJust 20 f.arrival_airport ++ "|" ++ pyLJust 16 f.departure_time ++ "|"
    ++ pyLJust 16 f.arrival_time ++ "|"

/-- The lines printed by `display_flights` (task1), in order. -/
def display_flights (fs : List Task1.Flight) : List String :=
  match fs with
  | [] => ["Список рейсов пуст."]
  | _ =>
    flightsLine :: flightsHeader :: flightsLine :: fs.map flightRow ++ [flightsLine]

end Display

namespace Task1

/-- The five string arguments of one `add_flight` call. -/
structure FlightReq where
  number : String
  departure_airport : String
  arrival_airport : String
  departure_time : String
  arrival_time : String
deriving DecidableEq, Repr

/-- The row that a task1 `add_flight` call stores: the strings verbatim. -/
def FlightReq.toFlight (r : FlightReq) : Flight :=
  ⟨r.number, r.departure_airport, r.arrival_airport, r.departure_time, r.arrival_time⟩

/-- Run a sequence of `add_flight` calls; a call that raises leaves the
store unchanged (the failed statement is never committed) and the caller
moves on. -/
def addFlights (db : Store) : List FlightReq → Store
  | [] => db
  | r :: rs =>
    match add_flight r.number r.departure_airport r.arrival_airport
        r.departure_time r.arrival_time db with
    | .ok db2 => addFlights db2 rs
    | .error _ => addFlights db rs

/-- The three flights of the scenario in §8 of the spec (and of
`test_get_flights_by_destination`). -/
def demoReqs : List FlightReq :=
  [⟨"SU100", "SVO", "LED", "2024-05-20 10:00", "2024-05-20 11:30"⟩,
   ⟨"SU200", "LED", "DME", "2024-05-20 14:00", "2024-05-20 15:30"⟩,
   ⟨"SU300", "SVO", "DME", "2024-05-20 16:00", "2024-05-20 16:45"⟩]

end Task1

namespace Task2

/-- The five string arguments of one task2 `add_flight` call. -/
structure FlightReq where
  number : String
  departure_airport : String
  arrival_airport : String
  departure_time : String
  arrival_time : String
deriving DecidableEq, Repr

/-- Both timestamp strings of the request parse under `%Y-%m-%d %H:%M`. -/
def FlightReq.parses (r : FlightReq) : Prop :=
  (strptimeYmdHM r.departure_time).isSome ∧ (strptimeYmdHM r.arrival_time).isSome

instance (r : FlightReq) : Decidable r.parses := by
  unfold FlightReq.parses
  infer_instance

/-- The row that a successful task2 `add_flight` call stores: the parsed
timestamps (the `getD` default is never reached when the request parses). -/
def FlightReq.toFlight (r : FlightReq) : Flight :=
  ⟨r.number, r.departure_airport, r.arrival_airport,
   (strptimeYmdHM r.departure_time).getD ⟨0, 0, 0, 0, 0⟩,
   (strptimeYmdHM r.arrival_time).getD ⟨0, 0, 0, 0, 0⟩⟩

/-- Run a sequence of task2 `add_flight` calls; a call that raises leaves
the store unchanged and the caller moves on. -/
def addFlights (db : Store) : List FlightReq → Store
  | [] => db
  | r :: rs =>
    match add_flight r.number r.departure_airport r.arrival_airport
        r.departure_time r.arrival_time db with
    | .ok db2 => addFlights db2 rs
    | .error _ => addFlights db rs

/-- The three flights of the scenario in §8 of the spec. -/
def demoReqs : List FlightReq :=
  [⟨"SU100", "SVO", "LED", "2024-05-20 10:00", "2024-05-20 11:30"⟩,
   ⟨"SU200", "LED", "DME", "2024-05-20 14:00", "2024-05-20 15:30"⟩,
   ⟨"SU300", "SVO", "DME", "2024-05-20 16:00", "2024-05-20 16:45"⟩]

end Task2

namespace Workers

/-- The state invariant maintained by `StaffRepository`: every stored post
id is below the AUTOINCREMENT counter, post ids are pairwise distinct
(`post_id INTEGER PRIMARY KEY`), and every worker references an id below
the counter.  It holds on a fresh database and every repository operation
preserves it. -/
def wf (db : StaffStore) : Prop :=
  (∀ p ∈ db.posts, p.post_id < db.nextPostId)
  ∧ (db.posts.map PostRow.post_id).Nodup
  ∧ (∀ w ∈ db.workers, w.post_id < db.nextPostId)

instance (db : StaffStore) : Decidable (wf db) := by
  unfold wf
  infer_instance

/-- The staff store of the period-filter scenario: one worker that started
in 2010 and one that started in 2020. -/
def staffDemo : StaffStore :=
  add_worker "Петров П.П." "менеджер" 2020
    (add_worker "Иванов И.И." "инженер" 2010 emptyStaffStore)

end Workers

/-! ### Supporting lemmas -/

namespace Task1

theorem add_flight_fresh_ok (number departure arrival depTime arrTime : String)
    (db : Store) (h : ∀ f ∈ db.flights, f.number ≠ number) :
    add_flight number departure arrival depTime arrTime db
      = .ok { db with
              flights := db.flights ++ [⟨number, departure, arrival, depTime, arrTime⟩] } := by
  have hany : db.flights.any (fun f => f.number = number) = false := by
    simp only [List.any_eq_false, decide_eq_true_eq]
    exact h
  simp [add_flight, insertFlight, foreign_keys_pragma, hany]

theorem addFlights_appends (rs : List FlightReq) (db : Store)
    (hnodup : (rs.map FlightReq.number).Nodup)
    (hfresh : ∀ r ∈ rs, ∀ f ∈ db.flights, f.number ≠ r.number) :
    addFlights db rs = { db with flights := db.flights ++ rs.map FlightReq.toFlight } := by
  induction rs generalizing db with
  | nil => simp [addFlights]
  | cons r rs ih =>
    simp only [List.map_cons, List.nodup_cons, List.mem_map] at hnodup
    have hok := add_flight_fresh_ok r.number r.departure_airport r.arrival_airport
      r.departure_time r.arrival_time db (fun f hf => hfresh r (by simp) f hf)
    have hfresh2 : ∀ r' ∈ rs, ∀ f ∈ db.flights ++ [FlightReq.toFlight r],
        f.number ≠ r'.number := by
      intro r' hr' f hf
      rcases List.mem_append.mp hf with hold | hnew
      · exact hfresh r' (by simp [hr']) f hold
      · have hfr : f = r.toFlight := by simpa using hnew
        subst hfr
        intro hcontra
        exact hnodup.1 ⟨r', hr', hcontra.symm⟩
    have hstep : addFlights db (r :: rs)
        = addFlights { db with flights := db.flights ++ [FlightReq.toFlight r] } rs := by
      rw [addFlights, hok]
      rfl
    rw [hstep, ih { db with flights := db.flights ++ [FlightReq.toFlight r] } hnodup.2 hfresh2]
    simp [FlightReq.toFlight]

end Task1

namespace Task2

theorem add_flight_parsed_ok (number departure arrival depS arrS : String)
    (db : Store)
    (hd : (strptimeYmdHM depS).isSome) (ha : (strptimeYmdHM arrS).isSome)
    (h : ∀ f ∈ db.flights, f.number ≠ number) :
    add_flight number departure arrival depS arrS db
      = .ok { db with
              flights := db.flights
                ++ [⟨number, departure, arrival,
                     (strptimeYmdHM depS).getD ⟨0, 0, 0, 0, 0⟩,
                     (strptimeYmdHM arrS).getD ⟨0, 0, 0, 0, 0⟩⟩] } := by
  obtain ⟨dv, hdv⟩ := Option.isSome_iff_exists.mp hd
  obtain ⟨av, hav⟩ := Option.isSome_iff_exists.mp ha
  have hany : db.flights.any (fun f => f.number = number) = false := by
    simp only [List.any_eq_false, decide_eq_true_eq]
    exact h
  simp [add_flight, hdv, hav, hany]

theorem addFlights_appends_parsed (rs : List FlightReq) (db : Store)
    (hnodup : (rs.map FlightReq.number).Nodup)
    (hparse : ∀ r ∈ rs, r.parses)
    (hfresh : ∀ r ∈ rs, ∀ f ∈ db.flights, f.number ≠ r.number) :
    addFlights db rs = { db with flights := db.flights ++ rs.map FlightReq.toFlight } := by
  induction rs generalizing db with
  | nil => simp [addFlights]
  | cons r rs ih =>
    simp only [List.map_cons, List.nodup_cons, List.mem_map] at hnodup
    have hpr := hparse r (by simp)
    have hok := add_flight_parsed_ok r.number r.departure_airport r.arrival_airport
      r.departure_time r.arrival_time db hpr.1 hpr.2 (fun f hf => hfresh r (by simp) f hf)
    have hfresh2 : ∀ r' ∈ rs, ∀ f ∈ db.flights ++ [FlightReq.toFlight r],
        f.number ≠ r'.number := by
      intro r' hr' f hf
      rcases List.mem_append.mp hf with hold | hnew
      · exact hfresh r' (by simp [hr']) f hold
      · have hfr : f = r.toFlight := by simpa [FlightReq.toFlight] using hnew
        subst hfr
        intro hcontra
        exact hnodup.1 ⟨r', hr', hcontra.symm⟩
    have hstep : addFlights db (r :: rs)
        = addFlights { db with flights := db.flights ++ [FlightReq.toFlight r] } rs := by
      rw [addFlights, hok]
      rfl
    rw [hstep, ih { db with flights := db.flights ++ [FlightReq.toFlight r] } hnodup.2
      (fun r' hr' => hparse r' (by simp [hr'])) hfresh2]
    simp [FlightReq.toFlight]

end Task2

namespace Workers

theorem filter_post_id_nil (posts : List PostRow) (k : Nat)
    (h : ∀ p ∈ posts, p.post_id < k) :
    posts.filter (fun p => p.post_id = k) = [] := by
  rw [List.filter_eq_nil_iff]
  intro p hp
  simp only [decide_eq_true_eq]
  exact Nat.ne_of_lt (h p hp)

theorem filter_post_id_single (posts : List PostRow) (r : PostRow)
    (hmem : r ∈ posts) (hnodup : (posts.map PostRow.post_id).Nodup) :
    posts.filter (fun p => p.post_id = r.post_id) = [r] := by
  induction posts with
  | nil => cases hmem
  | cons q qs ih =>
    simp only [List.map_cons, List.nodup_cons, List.mem_map] at hnodup
    rcases List.mem_cons.mp hmem with hq | hqs
    · subst hq
      rw [List.filter_cons_of_pos (by simp)]
      have hrest : qs.filter (fun p => p.post_id = r.post_id) = [] := by
        rw [List.filter_eq_nil_iff]
        intro p hp
        simp only [decide_eq_true_eq]
        intro hcontra
        exact hnodup.1 ⟨p, hp, hcontra⟩
      rw [hrest]
    · have hne : q.post_id ≠ r.post_id := by
        intro hcontra
        exact hnodup.1 ⟨r, hqs, hcontra.symm⟩
      rw [List.filter_cons_of_neg (by simpa using hne)]
      exact ih hqs hnodup.2

theorem joinAll_append (posts : List PostRow) (ws1 ws2 : List WorkerRow) :
    joinAll posts (ws1 ++ ws2) = joinAll posts ws1 ++ joinAll posts ws2 := by
  induction ws1 with
  | nil => simp [joinAll]
  | cons w ws ih => simp [joinAll, ih]

theorem joinAll_posts_snoc (posts : List PostRow) (np : PostRow) (ws : List WorkerRow)
    (h : ∀ w ∈ ws, w.post_id ≠ np.post_id) :
    joinAll (posts ++ [np]) ws = joinAll posts ws := by
  induction ws with
  | nil => rfl
  | cons w ws ih =>
    have hw : np.post_id ≠ w.post_id := fun hc => h w (by simp) hc.symm
    have hnp : [np].filter (fun p => p.post_id = w.post_id) = [] := by
      simp [List.filter_cons, hw]
    rw [joinAll, joinAll, List.filter_append, hnp, List.append_nil,
      ih (fun w' hw' => h w' (by simp [hw']))]

theorem get_all_workers_add_worker (name post : String) (year : Int)
    (db : StaffStore) (h : wf db) :
    get_all_workers (add_worker name post year db)
      = get_all_workers db ++ [⟨name, post, year⟩] := by
  obtain ⟨hlt, hnodup, hwlt⟩ := h
  unfold add_worker get_or_create_post
  cases hfind : db.posts.find? (fun p => p.post_title = post) with
  | some row =>
    have hrow_mem : row ∈ db.posts := List.mem_of_find?_eq_some hfind
    have htitle : row.post_title = post := by
      have := List.find?_some hfind
      simpa using this
    simp only [hfind]
    unfold get_all_workers
    rw [joinAll_append, List.map_append]
    have hsingle : joinAll db.posts [⟨name, row.post_id, year⟩]
        = [(⟨name, row.post_id, year⟩, row)] := by
      rw [joinAll, joinAll]
      rw [filter_post_id_single db.posts row hrow_mem hnodup]
      rfl
    rw [hsingle]
    simp [htitle]
  | none =>
    simp only [hfind]
    unfold get_all_workers
    rw [joinAll_append,
      joinAll_posts_snoc _ _ _ (fun w hw => Nat.ne_of_lt (hwlt w hw))]
    have hsingle : joinAll (db.posts ++ [⟨db.nextPostId, post⟩]) [⟨name, db.nextPostId, year⟩]
        = [(⟨name, db.nextPostId, year⟩, ⟨db.nextPostId, post⟩)] := by
      rw [joinAll, joinAll, List.filter_append,
        filter_post_id_nil db.posts db.nextPostId hlt]
      simp
    rw [hsingle]
    simp

theorem wf_add_worker (name post : String) (year : Int) (db : StaffStore)
    (h : wf db) : wf (add_worker name post year db) := by
  obtain ⟨hlt, hnodup, hwlt⟩ := h
  unfold add_worker get_or_create_post wf
  cases hfind : db.posts.find? (fun p => p.post_title = post) with
  | some row =>
    simp only [hfind]
    refine ⟨hlt, hnodup, ?_⟩
    intro w hw
    rcases List.mem_append.mp hw with h1 | h2
    · exact hwlt w h1
    · have hweq : w = ⟨name, row.post_id, year⟩ := by simpa using h2
      subst hweq
      exact hlt row (List.mem_of_find?_eq_some hfind)
  | none =>
    simp only [hfind]
    refine ⟨?_, ?_, ?_⟩
    · intro p hp
      rcases List.mem_append.mp hp with h1 | h2
      · exact Nat.lt_succ_of_lt (hlt p h1)
      · have hpeq : p = ⟨db.nextPostId, post⟩ := by simpa using h2
        subst hpeq
        exact Nat.lt_succ_self _
    · rw [List.map_append]
      refine List.Nodup.append hnodup (by simp) ?_
      intro a ha hb
      simp only [List.map_cons, List.map_nil, List.mem_singleton] at hb
      subst hb
      rcases List.mem_map.mp ha with ⟨p, hp, hpe⟩
      exact absurd hpe (Nat.ne_of_lt (hlt p hp))
    · intro w hw
      rcases List.mem_append.mp hw with h1 | h2
      · exact Nat.lt_succ_of_lt (hwlt w h1)
      · have hweq : w = ⟨name, db.nextPostId, year⟩ := by simpa using h2
        subst hweq
        exact Nat.lt_succ_self _

theorem joinAll_filter_map (current_year period : Int) (L : List (WorkerRow × PostRow)) :
    (L.filter (fun wp => period ≤ current_year - wp.1.worker_year)).map
        (fun wp => (⟨wp.1.worker_name, wp.2.post_title, wp.1.worker_year⟩ : Worker))
      = (L.map (fun wp => (⟨wp.1.worker_name, wp.2.post_title, wp.1.worker_year⟩ : Worker))).filter
          (fun w => period ≤ current_year - w.year) := by
  induction L with
  | nil => rfl
  | cons wp L ih =>
    by_cases hc : period ≤ current_year - wp.1.worker_year
    · simp [List.filter_cons, hc, ih]
    · simp [List.filter_cons, hc, ih]

end Workers

namespace Workers

theorem find?_append_of_none {α : Type} (p : α → Bool) (l1 l2 : List α)
    (h : l1.find? p = none) : (l1 ++ l2).find? p = l2.find? p := by
  induction l1 with
  | nil => rfl
  | cons a l ih =>
    cases hp : p a with
    | true => simp [List.find?_cons, hp] at h
    | false =>
      simp only [List.find?_cons, hp] at h
      simp only [List.cons_append, List.find?_cons, hp]
      exact ih h

end Workers

/-! ### Claims -/

/-- Claim C1: for every sequence of flights added to a Flight Registry
repository (either variant; the flight numbers are pairwise distinct so
that every `add_flight` succeeds, and in the task2 variant the timestamps
parse), `get_flights_by_destination code` returns exactly the added
flights whose arrival airport code equals `code`, and the empty list — not
an error — when no added flight has that arrival code. -/
theorem claim_flights_by_destination
    (rs1 : List Task1.FlightReq) (rs2 : List Task2.FlightReq) (code : String)
    (h1 : (rs1.map Task1.FlightReq.number).Nodup)
    (h2 : (rs2.map Task2.FlightReq.number).Nodup)
    (h3 : ∀ r ∈ rs2, r.parses) :
    Task1.get_flights_by_destination code (Task1.addFlights Task1.emptyStore rs1)
        = (rs1.map Task1.FlightReq.toFlight).filter (fun f => f.arrival_airport = code)
    ∧ ((∀ r ∈ rs1, r.arrival_airport ≠ code) →
        Task1.get_flights_by_destination code (Task1.addFlights Task1.emptyStore rs1) = [])
    ∧ Task2.get_flights_by_destination code (Task2.addFlights Task2.emptyStore rs2)
        = (rs2.map Task2.FlightReq.toFlight).filter (fun f => f.arrival_airport_code = code)
    ∧ ((∀ r ∈ rs2, r.arrival_airport ≠ code) →
        Task2.get_flights_by_destination code (Task2.addFlights Task2.emptyStore rs2) = []) := by
  have e1 := Task1.addFlights_appends rs1 Task1.emptyStore h1
    (by intro r hr f hf; simp [Task1.emptyStore] at hf)
  have e2 := Task2.addFlights_appends_parsed rs2 Task2.emptyStore h2 h3
    (by intro r hr f hf; simp [Task2.emptyStore] at hf)
  refine ⟨?_, ?_, ?_, ?_⟩
  · rw [e1]
    simp [Task1.get_flights_by_destination, Task1.emptyStore]
  · intro hnone
    rw [e1]
    simp only [Task1.get_flights_by_destination, Task1.emptyStore]
    rw [List.filter_eq_nil_iff]
    intro f hf
    rcases List.mem_map.mp (by simpa using hf) with ⟨r, hr, hre⟩
    subst hre
    simpa using hnone r hr
  · rw [e2]
    simp [Task2.get_flights_by_destination, Task2.emptyStore]
  · intro hnone
    rw [e2]
    simp only [Task2.get_flights_by_destination, Task2.emptyStore]
    rw [List.filter_eq_nil_iff]
    intro f hf
    rcases List.mem_map.mp (by simpa using hf) with ⟨r, hr, hre⟩
    subst hre
    simpa [Task2.FlightReq.toFlight] using hnone r hr

/-- Witness for C1 at the §8 scenario: flights SU100 SVO→LED, SU200
LED→DME, SU300 SVO→DME; destination DME matches the filter result,
destination XXX yields the empty list. -/
theorem claim_flights_by_destination_instance :
    ((Task1.demoReqs.map Task1.FlightReq.number).Nodup
      ∧ (Task2.demoReqs.map Task2.FlightReq.number).Nodup
      ∧ (∀ r ∈ Task2.demoReqs, r.parses))
    ∧ Task1.get_flights_by_destination "DME" (Task1.addFlights Task1.emptyStore Task1.demoReqs)
        = (Task1.demoReqs.map Task1.FlightReq.toFlight).filter
            (fun f => f.arrival_airport = "DME")
    ∧ Task1.get_flights_by_destination "XXX" (Task1.addFlights Task1.emptyStore Task1.demoReqs)
        = []
    ∧ Task2.get_flights_by_destination "DME" (Task2.addFlights Task2.emptyStore Task2.demoReqs)
        = (Task2.demoReqs.map Task2.FlightReq.toFlight).filter
            (fun f => f.arrival_airport_code = "DME") :=
  ⟨⟨by decide, by decide, by decide⟩,
   (claim_flights_by_destination Task1.demoReqs Task2.demoReqs "DME"
     (by decide) (by decide) (by decide)).1,
   (claim_flights_by_destination Task1.demoReqs Task2.demoReqs "XXX"
     (by decide) (by decide) (by decide)).2.1 (by decide),
   (claim_flights_by_destination Task1.demoReqs Task2.demoReqs "DME"
     (by decide) (by decide) (by decide)).2.2.1⟩

/-- Claim C2 counterexample: the claim also covers the task1 variant
(`src/tasks/task1.py`), but task1 never parses its timestamp arguments: an
`add_flight` call with the malformed timestamp string "not-a-date" does not
raise a FormatError — it succeeds and inserts the row, storing the
malformed string verbatim. -/
theorem claim_format_error_cex :
    Task1.add_flight "SU100" "SVO" "LED" "not-a-date" "2024-05-20 11:30"
        ⟨[⟨"SVO", "Шереметьево", "Москва"⟩, ⟨"LED", "Пулково", "Санкт-Петербург"⟩], []⟩
      = .ok ⟨[⟨"SVO", "Шереметьево", "Москва"⟩, ⟨"LED", "Пулково", "Санкт-Петербург"⟩],
             [⟨"SU100", "SVO", "LED", "not-a-date", "2024-05-20 11:30"⟩]⟩ := by
  rfl

/-- Claim C2 as amended: in the task2 (SQLAlchemy) variant, `add_flight`
raises a FormatError exactly when one of the two timestamp strings fails to
parse under the fixed format `%Y-%m-%d %H:%M` (and then nothing is
inserted, the error being raised before the row is added to the session);
the task1 (sqlite3) variant performs no timestamp parsing at all and,
for a fresh flight number, inserts any five strings verbatim without
raising. -/
theorem claim_format_error_amended :
    (∀ (number dep arr depS arrS : String) (db : Task2.Store),
        Task2.add_flight number dep arr depS arrS db = .error .FormatError
          ↔ Task2.strptimeYmdHM depS = none ∨ Task2.strptimeYmdHM arrS = none)
    ∧ (∀ (number dep arr depS arrS : String) (db : Task1.Store),
        (∀ f ∈ db.flights, f.number ≠ number) →
        Task1.add_flight number dep arr depS arrS db
          = .ok { db with flights := db.flights ++ [⟨number, dep, arr, depS, arrS⟩] }) := by
  constructor
  · intro number dep arr depS arrS db
    cases hd : Task2.strptimeYmdHM depS with
    | none => simp [Task2.add_flight, hd]
    | some dv =>
      cases ha : Task2.strptimeYmdHM arrS with
      | none => simp [Task2.add_flight, hd, ha]
      | some av =>
        simp only [Task2.add_flight, hd, ha]
        constructor
        · intro h
          split at h <;> simp at h
        · intro h
          simp at h
  · intro number dep arr depS arrS db h
    exact Task1.add_flight_fresh_ok number dep arr depS arrS db h

/-- Witness for C2 as amended: the malformed string "not-a-date" raises a
FormatError in task2 (with nothing inserted), while task1 accepts and
stores it. -/
theorem claim_format_error_amended_instance :
    Task2.add_flight "SU100" "SVO" "LED" "not-a-date" "2024-05-20 11:30" Task2.emptyStore
        = .error .FormatError
    ∧ Task1.add_flight "SU100" "SVO" "LED" "not-a-date" "2024-05-20 11:30" Task1.emptyStore
        = .ok { Task1.emptyStore with
                flights := Task1.emptyStore.flights
                  ++ [⟨"SU100", "SVO", "LED", "not-a-date", "2024-05-20 11:30"⟩] } :=
  ⟨(claim_format_error_amended.1 "SU100" "SVO" "LED" "not-a-date" "2024-05-20 11:30"
      Task2.emptyStore).mpr (Or.inl (by decide)),
   claim_format_error_amended.2 "SU100" "SVO" "LED" "not-a-date" "2024-05-20 11:30"
      Task1.emptyStore (by intro f hf; simp [Task1.emptyStore] at hf)⟩

/-- Claim C3 (recording the code bug): with one airport SVO present and
NONEXISTENT absent, `add_flight` referencing the dangling arrival code
succeeds and inserts the row in both variants, because the sqlite
`foreign_keys` pragma is never enabled by either implementation — even
though `test_task1.py::test_flight_with_nonexistent_airport` expects an
exception here and the spec requires a ReferentialIntegrityError from the
enforcing variant. -/
theorem claim_fk_enforcement_bug :
    Task1.add_flight "SU100" "SVO" "NONEXISTENT" "2024-05-20 10:00" "2024-05-20 11:30"
        ⟨[⟨"SVO", "Шереметьево", "Москва"⟩], []⟩
      = .ok ⟨[⟨"SVO", "Шереметьево", "Москва"⟩],
             [⟨"SU100", "SVO", "NONEXISTENT", "2024-05-20 10:00", "2024-05-20 11:30"⟩]⟩
    ∧ Task2.add_flight "SU100" "SVO" "NONEXISTENT" "2024-05-20 10:00" "2024-05-20 11:30"
        ⟨[⟨"SVO", "Шереметьево", "Москва"⟩], []⟩
      = .ok ⟨[⟨"SVO", "Шереметьево", "Москва"⟩],
             [⟨"SU100", "SVO", "NONEXISTENT", ⟨2024, 5, 20, 10, 0⟩, ⟨2024, 5, 20, 11, 30⟩⟩]⟩ := by
  constructor <;> rfl

/-- Claim C4: in both variants, once `add_airport` has succeeded for a
code, any second `add_airport` with the same code (any name and city)
raises a UniquenessViolation, by the PRIMARY KEY on `airports.code`. -/
theorem claim_duplicate_airport (code name1 city1 name2 city2 : String) :
    (∀ db db' : Task1.Store,
        Task1.add_airport code name1 city1 db = .ok db' →
        Task1.add_airport code name2 city2 db' = .error .UniquenessViolation)
    ∧ (∀ db db' : Task2.Store,
        Task2.add_airport code name1 city1 db = .ok db' →
        Task2.add_airport code name2 city2 db' = .error .UniquenessViolation) := by
  constructor
  · intro db db' h
    unfold Task1.add_airport at h ⊢
    by_cases hc : db.airports.any (fun a => a.code = code) = true
    · rw [if_pos hc] at h
      exact absurd h (by simp)
    · rw [if_neg hc] at h
      injection h with h2
      rw [if_pos]
      rw [← h2]
      simp
  · intro db db' h
    unfold Task2.add_airport at h ⊢
    by_cases hc : db.airports.any (fun a => a.code = code) = true
    · rw [if_pos hc] at h
      exact absurd h (by simp)
    · rw [if_neg hc] at h
      injection h with h2
      rw [if_pos]
      rw [← h2]
      simp

/-- Witness for C4: adding SVO to a fresh repository and then adding SVO
again raises a UniquenessViolation, in both variants. -/
theorem claim_duplicate_airport_instance :
    Task1.add_airport "SVO" "Другое название" "Другой город"
        ⟨[⟨"SVO", "Шереметьево", "Москва"⟩], []⟩ = .error .UniquenessViolation
    ∧ Task2.add_airport "SVO" "Другое название" "Другой город"
        ⟨[⟨"SVO", "Шереметьево", "Москва"⟩], []⟩ = .error .UniquenessViolation :=
  ⟨(claim_duplicate_airport "SVO" "Шереметьево" "Москва" "Другое название" "Другой город").1
      Task1.emptyStore ⟨[⟨"SVO", "Шереметьево", "Москва"⟩], []⟩ (by rfl),
   (claim_duplicate_airport "SVO" "Шереметьево" "Москва" "Другое название" "Другой город").2
      ⟨[], []⟩ ⟨[⟨"SVO", "Шереметьево", "Москва"⟩], []⟩ (by rfl)⟩

/-- Claim C5: `get_or_create_post` is idempotent in a single-threaded run:
calling it twice with the same title returns the same post id both times,
and the second call does not change the store (no second insert). -/
theorem claim_get_or_create_post_idem (title : String) (db : Workers.StaffStore) :
    (Workers.get_or_create_post title (Workers.get_or_create_post title db).2).1
        = (Workers.get_or_create_post title db).1
    ∧ (Workers.get_or_create_post title (Workers.get_or_create_post title db).2).2
        = (Workers.get_or_create_post title db).2 := by
  cases hfind : db.posts.find? (fun p => p.post_title = title) with
  | some row =>
    have h1 : Workers.get_or_create_post title db = (row.post_id, db) := by
      unfold Workers.get_or_create_post
      rw [hfind]
    rw [h1, h1]
    exact ⟨rfl, rfl⟩
  | none =>
    have h1 : Workers.get_or_create_post title db
        = (db.nextPostId,
           { db with posts := db.posts ++ [⟨db.nextPostId, title⟩],
                     nextPostId := db.nextPostId + 1 }) := by
      unfold Workers.get_or_create_post
      rw [hfind]
    have h2 : (db.posts
          ++ [({ post_id := db.nextPostId, post_title := title } : Workers.PostRow)]).find?
        (fun p => p.post_title = title)
        = some { post_id := db.nextPostId, post_title := title } := by
      rw [Workers.find?_append_of_none _ _ _ hfind]
      simp [List.find?_cons]
    rw [h1]
    unfold Workers.get_or_create_post
    simp [h2]

/-- Claim C6: a flight added with time strings "2024-05-20 10:00" and
"2024-05-20 11:30" (after adding its two airports to a fresh repository)
is returned by `get_all_flights` with those time values reproduced: in
task1 the exact original strings, in task2 timestamp values with
components 2024-05-20 10:00 and 2024-05-20 11:30 respectively. -/
theorem claim_flight_time_roundtrip :
    ((Task1.add_airport "SVO" "Шереметьево" "Москва" Task1.emptyStore).bind
        (fun db1 => (Task1.add_airport "LED" "Пулково" "Санкт-Петербург" db1).bind
          (fun db2 => (Task1.add_flight "SU100" "SVO" "LED"
              "2024-05-20 10:00" "2024-05-20 11:30" db2).map Task1.get_all_flights)))
      = .ok [⟨"SU100", "SVO", "LED", "2024-05-20 10:00", "2024-05-20 11:30"⟩]
    ∧ ((Task2.add_airport "SVO" "Шереметьево" "Москва" Task2.emptyStore).bind
        (fun db1 => (Task2.add_airport "LED" "Пулково" "Санкт-Петербург" db1).bind
          (fun db2 => (Task2.add_flight "SU100" "SVO" "LED"
              "2024-05-20 10:00" "2024-05-20 11:30" db2).map Task2.get_all_flights)))
      = .ok [⟨"SU100", "SVO", "LED", ⟨2024, 5, 20, 10, 0⟩, ⟨2024, 5, 20, 11, 30⟩⟩] := by
  constructor <;> rfl

/-- Claim C7: `select_by_period period` returns exactly the workers of the
`workers`-to-`posts` join satisfying `current_year - year >= period`; with
the reference year fixed at 2024 and period 10, the worker with year 2010
is returned (2024-2010=14 >= 10) and the worker with year 2020 is not
(4 < 10). -/
theorem claim_select_by_period (current_year period : Int) (db : Workers.StaffStore) :
    Workers.select_by_period current_year period db
        = (Workers.get_all_workers db).filter (fun w => period ≤ current_year - w.year)
    ∧ Workers.select_by_period 2024 10 Workers.staffDemo
        = [⟨"Иванов И.И.", "инженер", 2010⟩]
    ∧ (⟨"Петров П.П.", "менеджер", 2020⟩ : Workers.Worker)
        ∉ Workers.select_by_period 2024 10 Workers.staffDemo := by
  refine ⟨?_, by decide, by decide⟩
  unfold Workers.select_by_period Workers.get_all_workers
  exact Workers.joinAll_filter_map current_year period (Workers.joinAll db.posts db.workers)

/-- Claim C8: schema creation is idempotent: running the repository
constructor's CREATE TABLE IF NOT EXISTS statements a second time changes
nothing, never errors (the functions are total), creates a table only when
it is absent, and leaves all rows of an existing table unchanged — for
both the Worker Registry and the task1 Flight Registry. -/
theorem claim_ensure_schema_idempotent :
    (∀ s : Schema.StaffSchema, Schema.create_db (Schema.create_db s) = Schema.create_db s)
    ∧ (∀ (s : Schema.StaffSchema) (rows : List Workers.PostRow),
        s.posts = some rows → (Schema.create_db s).posts = some rows)
    ∧ (∀ (s : Schema.StaffSchema) (rows : List Workers.WorkerRow),
        s.workers = some rows → (Schema.create_db s).workers = some rows)
    ∧ (∀ s : Schema.StaffSchema, (Schema.create_db s).posts.isSome
        ∧ (Schema.create_db s).workers.isSome)
    ∧ (∀ s : Schema.FlightSchema,
        Schema.create_tables (Schema.create_tables s) = Schema.create_tables s)
    ∧ (∀ (s : Schema.FlightSchema) (rows : List Task1.Airport),
        s.airports = some rows → (Schema.create_tables s).airports = some rows)
    ∧ (∀ (s : Schema.FlightSchema) (rows : List Task1.Flight),
        s.flights = some rows → (Schema.create_tables s).flights = some rows) := by
  refine ⟨?_, ?_, ?_, ?_, ?_, ?_, ?_⟩
  · intro s
    cases hp : s.posts <;> cases hw : s.workers <;>
      simp [Schema.create_db, Schema.createTableIfNotExists, hp, hw]
  · intro s rows h
    simp [Schema.create_db, Schema.createTableIfNotExists, h]
  · intro s rows h
    simp [Schema.create_db, Schema.createTableIfNotExists, h]
  · intro s
    cases hp : s.posts <;> cases hw : s.workers <;>
      simp [Schema.create_db, Schema.createTableIfNotExists, hp, hw]
  · intro s
    cases ha : s.airports <;> cases hf : s.flights <;>
      simp [Schema.create_tables, Schema.createTableIfNotExists, ha, hf]
  · intro s rows h
    simp [Schema.create_tables, Schema.createTableIfNotExists, h]
  · intro s rows h
    simp [Schema.create_tables, Schema.createTableIfNotExists, h]

/-- Witness for C8 on a store that already has rows: creating the schema
again preserves the stored post row and loses no data. -/
theorem claim_ensure_schema_idempotent_instance :
    Schema.create_db (Schema.create_db ⟨some [⟨1, "инженер"⟩], none⟩)
        = Schema.create_db ⟨some [⟨1, "инженер"⟩], none⟩
    ∧ (Schema.create_db ⟨some [⟨1, "инженер"⟩], none⟩).posts = some [⟨1, "инженер"⟩]
    ∧ Schema.create_tables (Schema.create_tables
          ⟨some [⟨"SVO", "Шереметьево", "Москва"⟩], some []⟩)
        = Schema.create_tables ⟨some [⟨"SVO", "Шереметьево", "Москва"⟩], some []⟩
    ∧ (Schema.create_tables ⟨some [⟨"SVO", "Шереметьево", "Москва"⟩], some []⟩).airports
        = some [⟨"SVO", "Шереметьево", "Москва"⟩] :=
  ⟨claim_ensure_schema_idempotent.1 ⟨some [⟨1, "инженер"⟩], none⟩,
   claim_ensure_schema_idempotent.2.1 ⟨some [⟨1, "инженер"⟩], none⟩ [⟨1, "инженер"⟩] rfl,
   claim_ensure_schema_idempotent.2.2.2.2.1
      ⟨some [⟨"SVO", "Шереметьево", "Москва"⟩], some []⟩,
   claim_ensure_schema_idempotent.2.2.2.2.2.1
      ⟨some [⟨"SVO", "Шереметьево", "Москва"⟩], some []⟩
      [⟨"SVO", "Шереметьево", "Москва"⟩] rfl⟩

/-- Claim C9: on the empty input list, the display function prints exactly
one "list is empty" line, which is not a table border line; on every
non-empty list it prints the bordered table — border, centred header row,
border, one data row per record, border — for both `display_workers`
(workers.py) and `display_flights` (task1). -/
theorem claim_display_empty_and_table :
    Display.display_workers [] = ["Список работников пуст."]
    ∧ "Список работников пуст." ≠ Display.workersLine
    ∧ (∀ ws : List Workers.Worker, ws ≠ [] →
        Display.display_workers ws
          = Display.workersLine :: Display.workersHeader :: Display.workersLine
              :: ((List.range ws.length).zip ws).map
                  (fun p => Display.workerRow (p.1 + 1) p.2)
              ++ [Display.workersLine]
        ∧ (((List.range ws.length).zip ws).map
              (fun p => Display.workerRow (p.1 + 1) p.2)).length = ws.length)
    ∧ Display.display_flights [] = ["Список рейсов пуст."]
    ∧ "Список рейсов пуст." ≠ Display.flightsLine
    ∧ (∀ fs : List Task1.Flight, fs ≠ [] →
        Display.display_flights fs
          = Display.flightsLine :: Display.flightsHeader :: Display.flightsLine
              :: fs.map Display.flightRow ++ [Display.flightsLine]
        ∧ (fs.map Display.flightRow).length = fs.length) := by
  refine ⟨rfl, by decide, ?_, rfl, by decide, ?_⟩
  · intro ws hws
    cases ws with
    | nil => exact absurd rfl hws
    | cons w ws' =>
      refine ⟨rfl, ?_⟩
      simp
  · intro fs hfs
    cases fs with
    | nil => exact absurd rfl hfs
    | cons f fs' => exact ⟨rfl, by simp⟩

/-- Witness for C9 on one-element lists: the table is border, header,
border, the single data row, border. -/
theorem claim_display_empty_and_table_instance :
    Display.display_workers [⟨"Ivanov", "Engineer", 2010⟩]
        = [Display.workersLine, Display.workersHeader, Display.workersLine,
           Display.workerRow 1 ⟨"Ivanov", "Engineer", 2010⟩, Display.workersLine]
    ∧ Display.display_flights
          [⟨"SU100", "SVO", "LED", "2024-05-20 10:00", "2024-05-20 11:30"⟩]
        = [Display.flightsLine, Display.flightsHeader, Display.flightsLine,
           Display.flightRow ⟨"SU100", "SVO", "LED", "2024-05-20 10:00", "2024-05-20 11:30"⟩,
           Display.flightsLine] :=
  ⟨by
    have h := (claim_display_empty_and_table.2.2.1
      [⟨"Ivanov", "Engineer", 2010⟩] (by simp)).1
    simpa using h,
   by
    have h := (claim_display_empty_and_table.2.2.2.2.2
      [⟨"SU100", "SVO", "LED", "2024-05-20 10:00", "2024-05-20 11:30"⟩] (by simp)).1
    simpa using h⟩

/-- Claim C10: from any well-formed store, after a successful
`add_worker(name, post, year)` the result of `get_all_workers` contains a
Worker record with exactly that name, post title and year (the join always
succeeds because `add_worker` resolves the post through
`get_or_create_post` first); concretely the new listing is the old one
plus that record, and two identical `add_worker` calls append two such
records, since `workers` has no uniqueness constraint. -/
theorem claim_add_worker_visible (name post : String) (year : Int)
    (db : Workers.StaffStore) (h : Workers.wf db) :
    (⟨name, post, year⟩ : Workers.Worker)
        ∈ Workers.get_all_workers (Workers.add_worker name post year db)
    ∧ Workers.get_all_workers (Workers.add_worker name post year db)
        = Workers.get_all_workers db ++ [⟨name, post, year⟩]
    ∧ Workers.get_all_workers
          (Workers.add_worker name post year (Workers.add_worker name post year db))
        = Workers.get_all_workers db ++ [⟨name, post, year⟩, ⟨name, post, year⟩] := by
  have e1 := Workers.get_all_workers_add_worker name post year db h
  have e2 := Workers.get_all_workers_add_worker name post year
      (Workers.add_worker name post year db) (Workers.wf_add_worker name post year db h)
  refine ⟨?_, e1, ?_⟩
  · rw [e1]
    simp
  · rw [e2, e1]
    simp

/-- Witness for C10 from the fresh store, which is well formed: adding the
same worker twice lists the record twice. -/
theorem claim_add_worker_visible_instance :
    Workers.wf Workers.emptyStaffStore
    ∧ (⟨"Ivanov", "Engineer", 2010⟩ : Workers.Worker)
        ∈ Workers.get_all_workers
            (Workers.add_worker "Ivanov" "Engineer" 2010 Workers.emptyStaffStore)
    ∧ Workers.get_all_workers
          (Workers.add_worker "Ivanov" "Engineer" 2010
            (Workers.add_worker "Ivanov" "Engineer" 2010 Workers.emptyStaffStore))
        = Workers.get_all_workers Workers.emptyStaffStore
            ++ [⟨"Ivanov", "Engineer", 2010⟩, ⟨"Ivanov", "Engineer", 2010⟩] :=
  ⟨by decide,
   (claim_add_worker_visible "Ivanov" "Engineer" 2010 Workers.emptyStaffStore (by decide)).1,
   (claim_add_worker_visible "Ivanov" "Engineer" 2010 Workers.emptyStaffStore (by decide)).2.2⟩
